import Mathlib

/-!
Shallow embedding of the go-workflows sources (redis backend, client, and the
ScheduleActivity command) together with proofs about the claims of the spec.

Go conventions are modelled as follows: a `(T, error)` return becomes a pair or
an `Except`/`Option GoError`; a method that mutates its receiver becomes a
function returning the updated value; a function that may `panic` returns a
`GoCall`; durations are `Nat` nanoseconds; payloads (`payload.Payload`, a byte
slice) are `String`.
-/

namespace GoWorkflows

/-- Model of a Go `error` value: either a plain message created by
`errors.New`/`fmt.Errorf`, a wrapping of a cause with a context string
(`errors.Wrap` / `fmt.Errorf` with `%w`), or a structured workflow error
produced by `workflowerrors.ToError`. -/
inductive GoError where
  | msg (s : String)
  | wrapped (context : String) (cause : GoError)
  | workflowError (typ : String) (message : String)
  deriving DecidableEq, Repr

/-- Model of a Go call that either returns normally or panics. -/
inductive GoCall (α : Type) where
  | ret (v : α)
  | panicked (m : String)
  deriving DecidableEq, Repr

/-- `payload.Payload` is a byte slice; modelled as a string. -/
abbrev Payload := String

/-- `core.WorkflowMetadata` / `workflow.Metadata`: a string map carrying
propagated context; modelled as an association list. -/
structure WorkflowMetadata where
  entries : List (String × String)
  deriving DecidableEq, Repr

/-- `core.WorkflowInstance`. -/
structure WorkflowInstance where
  InstanceID : String
  ExecutionID : String
  deriving DecidableEq, Repr

/-- `core.NewWorkflowInstance`. -/
def NewWorkflowInstance (instanceID executionID : String) : WorkflowInstance :=
  { InstanceID := instanceID, ExecutionID := executionID }

/-- `history.EventType` (exhaustive per the spec's data model). -/
inductive EventType where
  | workflowExecutionStarted
  | workflowExecutionFinished
  | workflowExecutionCanceled
  | workflowExecutionTerminated
  | workflowExecutionContinuedAsNew
  | workflowTaskStarted
  | activityScheduled
  | activityCompleted
  | activityFailed
  | timerScheduled
  | timerFired
  | timerCanceled
  | signalReceived
  | subWorkflowScheduled
  | subWorkflowCompleted
  | subWorkflowFailed
  | subWorkflowCancellationRequested
  | sideEffectResult
  deriving DecidableEq, Repr

/-- `history.ExecutionStartedAttributes`. -/
structure ExecutionStartedAttributes where
  Metadata : WorkflowMetadata
  Name : String
  Inputs : List Payload
  deriving DecidableEq, Repr

/-- `history.ExecutionCompletedAttributes`: the result payload and an optional
structured workflow error (`(typ, message)` pair when present). -/
structure ExecutionCompletedAttributes where
  Result : Payload
  Error : Option (String × String)
  deriving DecidableEq, Repr

/-- `history.ExecutionContinuedAsNewAttributes`. -/
structure ExecutionContinuedAsNewAttributes where
  Result : Payload
  deriving DecidableEq, Repr

/-- `history.SignalReceivedAttributes`. -/
structure SignalReceivedAttributes where
  Name : String
  Arg : Payload
  deriving DecidableEq, Repr

/-- `history.ActivityScheduledAttributes`. -/
structure ActivityScheduledAttributes where
  Name : String
  Inputs : List Payload
  Metadata : WorkflowMetadata
  deriving DecidableEq, Repr

/-- The typed attribute variants carried by an event (`event.Attributes` is an
`interface{}` in Go; a type assertion against the wrong variant panics). Only
the variants the claims touch are distinguished; the rest collapse to
`other`. -/
inductive EventAttributes where
  | executionStarted (a : ExecutionStartedAttributes)
  | executionCompleted (a : ExecutionCompletedAttributes)
  | executionContinuedAsNew (a : ExecutionContinuedAsNewAttributes)
  | signalReceived (a : SignalReceivedAttributes)
  | activityScheduled (a : ActivityScheduledAttributes)
  | other
  deriving DecidableEq, Repr

/-- `history.Event`. `sequenceID` is assigned on commit; pending events carry 0.
Timestamps are `Nat` nanoseconds. -/
structure Event where
  sequenceID : Int := 0
  timestamp : Nat
  type : EventType
  attributes : EventAttributes
  scheduleEventID : Int := 0
  deriving DecidableEq, Repr

/-- Modelled from the spec: `history.NewPendingEvent(timestamp, type, attrs,
opts...)` (the history package is not under src/). Per the spec's event data
model it builds a pending event with sequence id 0 and the given timestamp,
type and attributes; the `history.ScheduleEventID(id)` option sets
`schedule_event_id`, which defaults to 0. -/
def NewPendingEvent (timestamp : Nat) (ty : EventType) (attributes : EventAttributes)
    (scheduleEventID : Int := 0) : Event :=
  { sequenceID := 0, timestamp := timestamp, type := ty, attributes := attributes,
    scheduleEventID := scheduleEventID }

/-- `backend.WorkflowState` / `core.WorkflowInstanceState`. -/
inductive WorkflowState where
  | active
  | finished
  | continuedAsNew
  deriving DecidableEq, Repr

/-! ## Command model (`internal/command`) -/

/-- `command.CommandState`: the pending → committed → done state machine. -/
inductive CommandState where
  | pending
  | committed
  | done
  deriving DecidableEq, Repr

/-- The embedded base `command` struct: id, command kind name, and state. -/
structure command where
  id : Int
  name : String
  state : CommandState
  deriving DecidableEq, Repr

/-- `command.ScheduleActivityCommand`: the embedded base command plus the
activity name, inputs and metadata. -/
structure ScheduleActivityCommand where
  command : command
  Name : String
  Inputs : List Payload
  Metadata : WorkflowMetadata
  deriving DecidableEq, Repr

/-- `command.CommandResult` (the fields this command populates): events to
append to history and activity task messages. -/
structure CommandResult where
  Events : List Event
  ActivityEvents : List Event
  deriving DecidableEq, Repr

/-- `command.NewScheduleActivityCommand`. -/
def NewScheduleActivityCommand (id : Int) (name : String) (inputs : List Payload)
    (metadata : WorkflowMetadata) : ScheduleActivityCommand :=
  { command := { id := id, name := "ScheduleActivity", state := CommandState.pending },
    Name := name, Inputs := inputs, Metadata := metadata }

/-- `ScheduleActivityCommand.Execute`. The Go method mutates the receiver and
returns `*CommandResult`; modelled as returning the optional result together
with the updated command. The clock read `clock.Now()` is the `now`
argument. -/
def ScheduleActivityCommand.Execute (c : ScheduleActivityCommand) (now : Nat) :
    Option CommandResult × ScheduleActivityCommand :=
  match c.command.state with
  | CommandState.pending =>
    let c' := { c with command := { c.command with state := CommandState.committed } }
    let event := NewPendingEvent now EventType.activityScheduled
      (EventAttributes.activityScheduled
        { Name := c.Name, Inputs := c.Inputs, Metadata := c.Metadata })
      c.command.id
    (some { Events := [event], ActivityEvents := [event] }, c')
  | _ => (none, c)

/-! ## Claims C2 and C3: ScheduleActivityCommand.Execute -/

/-- C2: executing a `ScheduleActivity` command in state `Pending` produces
exactly one `ActivityScheduled` scheduling event carrying the command's
activity name, inputs, metadata, and its id as `schedule_event_id`, and
exactly one outbound activity-task message which is the very same event. -/
theorem scheduleActivity_execute_pending_event
    (c : ScheduleActivityCommand) (now : Nat)
    (hp : c.command.state = CommandState.pending) :
    ∃ e : Event,
      (c.Execute now).fst = some { Events := [e], ActivityEvents := [e] }
      ∧ e.type = EventType.activityScheduled
      ∧ e.attributes = EventAttributes.activityScheduled
          { Name := c.Name, Inputs := c.Inputs, Metadata := c.Metadata }
      ∧ e.scheduleEventID = c.command.id := by
  refine ⟨NewPendingEvent now EventType.activityScheduled
      (EventAttributes.activityScheduled
        { Name := c.Name, Inputs := c.Inputs, Metadata := c.Metadata })
      c.command.id, ?_, rfl, rfl, rfl⟩
  simp [ScheduleActivityCommand.Execute, hp]

/-- Witness for C2 at a concrete pending command. -/
theorem scheduleActivity_execute_pending_event_witness :
    ∃ e : Event,
      ((NewScheduleActivityCommand 7 "Add" ["p1"] ⟨[]⟩).Execute 5).fst
        = some { Events := [e], ActivityEvents := [e] }
      ∧ e.type = EventType.activityScheduled
      ∧ e.attributes = EventAttributes.activityScheduled
          { Name := (NewScheduleActivityCommand 7 "Add" ["p1"] ⟨[]⟩).Name,
            Inputs := (NewScheduleActivityCommand 7 "Add" ["p1"] ⟨[]⟩).Inputs,
            Metadata := (NewScheduleActivityCommand 7 "Add" ["p1"] ⟨[]⟩).Metadata }
      ∧ e.scheduleEventID = (NewScheduleActivityCommand 7 "Add" ["p1"] ⟨[]⟩).command.id :=
  scheduleActivity_execute_pending_event (NewScheduleActivityCommand 7 "Add" ["p1"] ⟨[]⟩) 5 rfl

/-- C3: `Execute` emits at most once. In state `Pending` it returns a result
and moves the command to `Committed`; in any other state it returns `none` and
leaves the command unchanged; and a second `Execute` after any first one
returns `none` and changes nothing, so `Execute; Execute` is observationally a
single `Execute`. -/
theorem scheduleActivity_execute_idempotent
    (c : ScheduleActivityCommand) (now now' : Nat) :
    (c.command.state = CommandState.pending →
      (c.Execute now).fst ≠ none
      ∧ (c.Execute now).snd.command.state = CommandState.committed)
    ∧ (c.command.state ≠ CommandState.pending → c.Execute now = (none, c))
    ∧ ((c.Execute now).snd.Execute now' = (none, (c.Execute now).snd)) := by
  refine ⟨fun hp => ?_, fun hnp => ?_, ?_⟩
  · constructor
    · simp [ScheduleActivityCommand.Execute, hp]
    · simp [ScheduleActivityCommand.Execute, hp]
  · cases hs : c.command.state with
    | pending => exact absurd hs hnp
    | committed => simp [ScheduleActivityCommand.Execute, hs]
    | done => simp [ScheduleActivityCommand.Execute, hs]
  · cases hs : c.command.state with
    | pending => simp [ScheduleActivityCommand.Execute, hs]
    | committed => simp [ScheduleActivityCommand.Execute, hs]
    | done => simp [ScheduleActivityCommand.Execute, hs]

/-- Witness for C3 at a concrete pending command. -/
theorem scheduleActivity_execute_idempotent_witness :
    ((NewScheduleActivityCommand 3 "Act" [] ⟨[]⟩).command.state = CommandState.pending →
      (((NewScheduleActivityCommand 3 "Act" [] ⟨[]⟩).Execute 1).fst ≠ none
      ∧ ((NewScheduleActivityCommand 3 "Act" [] ⟨[]⟩).Execute 1).snd.command.state
          = CommandState.committed))
    ∧ ((NewScheduleActivityCommand 3 "Act" [] ⟨[]⟩).command.state ≠ CommandState.pending →
        (NewScheduleActivityCommand 3 "Act" [] ⟨[]⟩).Execute 1
          = (none, NewScheduleActivityCommand 3 "Act" [] ⟨[]⟩))
    ∧ (((NewScheduleActivityCommand 3 "Act" [] ⟨[]⟩).Execute 1).snd.Execute 2
        = (none, ((NewScheduleActivityCommand 3 "Act" [] ⟨[]⟩).Execute 1).snd)) :=
  scheduleActivity_execute_idempotent (NewScheduleActivityCommand 3 "Act" [] ⟨[]⟩) 1 2

/-! ## Client: GetWorkflowResult (`client` package) -/

/-- `client.ErrWorkflowCanceled` (`errors.New("workflow canceled")`). -/
def ErrWorkflowCanceled : GoError := GoError.msg "workflow canceled"

/-- `client.ErrWorkflowTerminated` (`errors.New("workflow terminated")`). -/
def ErrWorkflowTerminated : GoError := GoError.msg "workflow terminated"

/-- Modelled from the spec: `workflowerrors.ToError` (the workflowerrors
package is not under src/). Per the spec's error design it converts the
serialized structured error (type and message) back into a Go error value. -/
def workflowerrorsToError (we : String × String) : GoError :=
  GoError.workflowError we.fst we.snd

/-- The outcome of Go's `(T, error)` return from `GetWorkflowResult`, where the
value is the zero value of `T` whenever an error is returned; a failed type
assertion on `event.Attributes` is a panic. -/
inductive GoResult (T : Type) where
  | ok (v : T)
  | err (e : GoError)
  | panicked (m : String)
  deriving DecidableEq, Repr

/-- The `Converter().From` side of the backend's converter contract: decoding a
payload into a `T` may fail. -/
abbrev Converter (T : Type) := Payload → Except GoError T

/-- The backwards scan of `GetWorkflowResult` over the history, given here the
REVERSED history (head = last event): the Go loop `for i := len(h)-1; i >= 0;
i--` with its `switch event.Type`. -/
def scanForResult {T : Type} (conv : Converter T) : List Event → GoResult T
  | [] => GoResult.err (GoError.msg "workflow finished, but could not find result event")
  | e :: rest =>
    if e.type = EventType.workflowExecutionFinished then
      match e.attributes with
      | EventAttributes.executionCompleted a =>
        match a.Error with
        | some we => GoResult.err (workflowerrorsToError we)
        | none =>
          match conv a.Result with
          | Except.error ce => GoResult.err (GoError.wrapped "converting result" ce)
          | Except.ok r => GoResult.ok r
      | _ => GoResult.panicked "interface conversion"
    else if e.type = EventType.workflowExecutionContinuedAsNew then
      match e.attributes with
      | EventAttributes.executionContinuedAsNew a =>
        match conv a.Result with
        | Except.error ce => GoResult.err (GoError.wrapped "converting result" ce)
        | Except.ok r => GoResult.ok r
      | _ => GoResult.panicked "interface conversion"
    else if e.type = EventType.workflowExecutionCanceled then
      GoResult.err ErrWorkflowCanceled
    else if e.type = EventType.workflowExecutionTerminated then
      GoResult.err ErrWorkflowTerminated
    else scanForResult conv rest

/-- `client.GetWorkflowResult`. The wait on the instance and the history fetch
go through the backend; their outcomes are the `waitErr` and `histResult`
arguments, after which the function scans the fetched history backwards. -/
def GetWorkflowResult {T : Type} (conv : Converter T) (waitErr : Option GoError)
    (histResult : Except GoError (List Event)) : GoResult T :=
  match waitErr with
  | some e => GoResult.err (GoError.wrapped "workflow did not finish in time" e)
  | none =>
    match histResult with
    | Except.error e => GoResult.err (GoError.wrapped "getting workflow history" e)
    | Except.ok h => scanForResult conv h.reverse

/-- The event types the scan of `GetWorkflowResult` decides on (the four cases
of its `switch`). -/
def isResultEventType (t : EventType) : Bool :=
  t = EventType.workflowExecutionFinished
  || t = EventType.workflowExecutionContinuedAsNew
  || t = EventType.workflowExecutionCanceled
  || t = EventType.workflowExecutionTerminated

lemma scanForResult_skip {T : Type} (conv : Converter T) (l rest : List Event)
    (hl : ∀ e ∈ l, isResultEventType e.type = false) :
    scanForResult conv (l ++ rest) = scanForResult conv rest := by
  induction l with
  | nil => rfl
  | cons e l ih =>
    have he := hl e (List.mem_cons_self e l)
    simp only [isResultEventType, Bool.or_eq_false_iff, decide_eq_false_iff_not] at he
    obtain ⟨⟨⟨h1, h2⟩, h3⟩, h4⟩ := he
    rw [List.cons_append]
    simp only [scanForResult, h1, h2, h3, h4, if_false]
    exact ih (fun e' he' => hl e' (List.mem_cons_of_mem e he'))

/-- A concrete converter used to instantiate theorems: decodes a payload as
itself. -/
def idConverter : Converter Payload := fun p => Except.ok p

/-- C4: after a successful wait, `GetWorkflowResult` on a history whose latest
result-deciding event is `WorkflowExecutionCanceled` returns
`ErrWorkflowCanceled`; on one ending in `WorkflowExecutionTerminated` it
returns `ErrWorkflowTerminated`; on one ending in `WorkflowExecutionFinished`
it returns the workflow's structured error when the attributes carry one, and
otherwise the decoded result value. -/
theorem getWorkflowResult_latest_terminal {T : Type} (conv : Converter T)
    (h1 h2 : List Event) (e : Event)
    (hafter : ∀ x ∈ h2, isResultEventType x.type = false) :
    (e.type = EventType.workflowExecutionCanceled →
      GetWorkflowResult conv none (Except.ok (h1 ++ e :: h2))
        = GoResult.err ErrWorkflowCanceled)
    ∧ (e.type = EventType.workflowExecutionTerminated →
      GetWorkflowResult conv none (Except.ok (h1 ++ e :: h2))
        = GoResult.err ErrWorkflowTerminated)
    ∧ (∀ a, e.type = EventType.workflowExecutionFinished →
        e.attributes = EventAttributes.executionCompleted a →
        (∀ we, a.Error = some we →
          GetWorkflowResult conv none (Except.ok (h1 ++ e :: h2))
            = GoResult.err (workflowerrorsToError we))
        ∧ (∀ r, a.Error = none → conv a.Result = Except.ok r →
          GetWorkflowResult conv none (Except.ok (h1 ++ e :: h2)) = GoResult.ok r)) := by
  have hrev : (h1 ++ e :: h2).reverse = h2.reverse ++ (e :: h1.reverse) := by
    simp [List.reverse_append]
  have hskip : scanForResult conv (h2.reverse ++ (e :: h1.reverse))
      = scanForResult conv (e :: h1.reverse) :=
    scanForResult_skip conv _ _ (fun x hx => hafter x (List.mem_reverse.mp hx))
  have hmain : GetWorkflowResult conv none (Except.ok (h1 ++ e :: h2))
      = scanForResult conv (e :: h1.reverse) := by
    show scanForResult conv (h1 ++ e :: h2).reverse = _
    rw [hrev, hskip]
  refine ⟨fun hc => ?_, fun ht => ?_, fun a hf ha => ⟨fun we hwe => ?_, fun r hn hr => ?_⟩⟩
  · rw [hmain]; simp [scanForResult, hc]
  · rw [hmain]; simp [scanForResult, ht]
  · rw [hmain]; simp [scanForResult, hf, ha, hwe]
  · rw [hmain]; simp [scanForResult, hf, ha, hn, hr]

/-- Witness for C4: a one-event history ending in a cancellation yields the
cancellation error, and one ending in a finish with error attributes yields
the workflow error. -/
theorem getWorkflowResult_latest_terminal_witness :
    GetWorkflowResult idConverter none
      (Except.ok [{ timestamp := 0, type := EventType.workflowExecutionCanceled,
                    attributes := EventAttributes.other }])
      = GoResult.err ErrWorkflowCanceled
    ∧ GetWorkflowResult idConverter none
      (Except.ok [{ timestamp := 0, type := EventType.workflowExecutionFinished,
                    attributes := EventAttributes.executionCompleted
                      { Result := "", Error := some ("panicError", "boom") } }])
      = GoResult.err (workflowerrorsToError ("panicError", "boom")) :=
  ⟨(getWorkflowResult_latest_terminal idConverter [] []
      { timestamp := 0, type := EventType.workflowExecutionCanceled,
        attributes := EventAttributes.other }
      (by intro x hx; cases hx)).1 rfl,
   ((getWorkflowResult_latest_terminal idConverter [] []
      { timestamp := 0, type := EventType.workflowExecutionFinished,
        attributes := EventAttributes.executionCompleted
          { Result := "", Error := some ("panicError", "boom") } }
      (by intro x hx; cases hx)).2.2
      { Result := "", Error := some ("panicError", "boom") } rfl rfl).1
      ("panicError", "boom") rfl⟩

/-- C10: when the fetched history contains no event of the four
result-deciding types, `GetWorkflowResult` (after a successful wait) returns
the "workflow finished, but could not find result event" error — an error
return, not a success and not a panic. -/
theorem getWorkflowResult_no_result_event {T : Type} (conv : Converter T) (h : List Event)
    (hno : ∀ e ∈ h, isResultEventType e.type = false) :
    GetWorkflowResult conv none (Except.ok h)
      = GoResult.err (GoError.msg "workflow finished, but could not find result event") := by
  have hs : scanForResult conv h.reverse = scanForResult conv ([] : List Event) := by
    have := scanForResult_skip conv h.reverse []
      (fun x hx => hno x (List.mem_reverse.mp hx))
    simpa using this
  simp [GetWorkflowResult, hs, scanForResult]

/-- Witness for C10 on a history holding only a `WorkflowTaskStarted` event. -/
theorem getWorkflowResult_no_result_event_witness :
    GetWorkflowResult idConverter none
      (Except.ok [{ timestamp := 3, type := EventType.workflowTaskStarted,
                    attributes := EventAttributes.other }])
      = GoResult.err (GoError.msg "workflow finished, but could not find result event") :=
  getWorkflowResult_no_result_event idConverter
    [{ timestamp := 3, type := EventType.workflowTaskStarted,
       attributes := EventAttributes.other }]
    (by intro e he; simp at he; subst he; rfl)

/-! ## Client: WaitForWorkflowInstance -/

/-- One nanosecond-valued `time.Duration` unit per Go constant. -/
def millisecond : Nat := 1000000

/-- `time.Second` in nanoseconds. -/
def second : Nat := 1000000000

/-- The `backoff.ExponentialBackOff` configuration record (fields the client
sets). Intervals and elapsed-time bounds are `Nat` nanoseconds; the
multiplier and randomization factor are rationals. -/
structure ExponentialBackOff where
  InitialInterval : Nat
  RandomizationFactor : ℚ
  Multiplier : ℚ
  MaxInterval : Nat
  MaxElapsedTime : Nat
  deriving DecidableEq, Repr

/-- The outcome of one `GetWorkflowInstanceState` poll: a state, or a backend
error. -/
inductive PollOutcome where
  | state (s : WorkflowState)
  | err (e : GoError)
  deriving DecidableEq, Repr

/-- The loop continues past a poll exactly when it returned a state that is
neither `Finished` nor `ContinuedAsNew`, without error. -/
def pollContinues : PollOutcome → Bool
  | PollOutcome.state s =>
      decide (¬(s = WorkflowState.finished ∨ s = WorkflowState.continuedAsNew))
  | PollOutcome.err _ => false

/-- The body of `WaitForWorkflowInstance`'s `for range ticker.C` loop, over the
finite sequence of poll outcomes the backoff ticker delivers before
`MaxElapsedTime` stops it: a poll error returns the wrapped state-fetch error;
a `Finished`/`ContinuedAsNew` state returns success; exhausting the ticker
returns the did-not-finish error. -/
def waitLoop : List PollOutcome → Option GoError
  | [] => some (GoError.msg "workflow did not finish in specified timeout")
  | PollOutcome.err e :: _ => some (GoError.wrapped "getting workflow state" e)
  | PollOutcome.state s :: rest =>
    if s = WorkflowState.finished ∨ s = WorkflowState.continuedAsNew then none
    else waitLoop rest

/-- `client.WaitForWorkflowInstance`. Real time, jitter and the ticker are not
shallow-embeddable, so the schedule of polls the ticker delivers within
`MaxElapsedTime` is the `polls` argument; the function returns the backoff
configuration it builds together with the loop's outcome. A zero timeout
defaults to 20 s before the backoff is configured. -/
def WaitForWorkflowInstance (timeout : Nat) (polls : List PollOutcome) :
    ExponentialBackOff × Option GoError :=
  let timeout' := if timeout = 0 then 20 * second else timeout
  ({ InitialInterval := 1 * millisecond,
     MaxInterval := 1 * second,
     Multiplier := 3/2,
     RandomizationFactor := 1/2,
     MaxElapsedTime := timeout' },
   waitLoop polls)

lemma waitLoop_skip (l rest : List PollOutcome)
    (hl : ∀ x ∈ l, pollContinues x = true) :
    waitLoop (l ++ rest) = waitLoop rest := by
  induction l with
  | nil => rfl
  | cons p l ih =>
    have hp := hl p (List.mem_cons_self p l)
    cases p with
    | state s =>
      simp only [pollContinues, decide_eq_true_eq] at hp
      rw [List.cons_append]
      simp only [waitLoop, if_neg hp]
      exact ih (fun x hx => hl x (List.mem_cons_of_mem _ hx))
    | err e => simp [pollContinues] at hp

lemma waitLoop_none_iff (polls : List PollOutcome) :
    waitLoop polls = none ↔
      ∃ l s r, polls = l ++ PollOutcome.state s :: r
        ∧ (s = WorkflowState.finished ∨ s = WorkflowState.continuedAsNew)
        ∧ ∀ x ∈ l, pollContinues x = true := by
  constructor
  · intro h
    induction polls with
    | nil => simp [waitLoop] at h
    | cons p rest ih =>
      cases p with
      | err e => simp [waitLoop] at h
      | state s =>
        by_cases hterm : s = WorkflowState.finished ∨ s = WorkflowState.continuedAsNew
        · exact ⟨[], s, rest, rfl, hterm, by intro x hx; cases hx⟩
        · simp only [waitLoop, if_neg hterm] at h
          obtain ⟨l, s', r, hsplit, hterm', hl⟩ := ih h
          refine ⟨PollOutcome.state s :: l, s', r, by rw [hsplit]; rfl, hterm', ?_⟩
          intro x hx
          rcases List.mem_cons.mp hx with hx | hx
          · subst hx; simp [pollContinues, hterm]
          · exact hl x hx
  · rintro ⟨l, s, r, rfl, hterm, hl⟩
    rw [waitLoop_skip l _ hl]
    simp [waitLoop, hterm]

/-- C6 (amended): `WaitForWorkflowInstance` configures exponential backoff
with initial interval 1 ms, multiplier 1.5, maximum interval 1 s and maximum
elapsed time the given timeout, where a zero timeout defaults to 20 s; it
returns success exactly when a poll observes `Finished` or `ContinuedAsNew`
after only non-terminal error-free polls; if a poll fails with a backend
error, that error is returned wrapped as a state-fetch error; and when every
delivered poll is non-terminal and error-free it returns the did-not-finish
error after the timeout. -/
theorem waitForWorkflowInstance_behavior (timeout : Nat) (polls : List PollOutcome) :
    ((WaitForWorkflowInstance timeout polls).fst
      = { InitialInterval := millisecond, MaxInterval := second,
          Multiplier := 3/2, RandomizationFactor := 1/2,
          MaxElapsedTime := if timeout = 0 then 20 * second else timeout })
    ∧ ((WaitForWorkflowInstance timeout polls).snd = none ↔
        ∃ l s r, polls = l ++ PollOutcome.state s :: r
          ∧ (s = WorkflowState.finished ∨ s = WorkflowState.continuedAsNew)
          ∧ ∀ x ∈ l, pollContinues x = true)
    ∧ (∀ l e r, polls = l ++ PollOutcome.err e :: r →
        (∀ x ∈ l, pollContinues x = true) →
        (WaitForWorkflowInstance timeout polls).snd
          = some (GoError.wrapped "getting workflow state" e))
    ∧ ((∀ x ∈ polls, pollContinues x = true) →
        (WaitForWorkflowInstance timeout polls).snd
          = some (GoError.msg "workflow did not finish in specified timeout")) := by
  refine ⟨by simp [WaitForWorkflowInstance, millisecond, second], ?_, ?_, ?_⟩
  · simpa [WaitForWorkflowInstance] using waitLoop_none_iff polls
  · intro l e r hsplit hl
    show waitLoop polls = _
    rw [hsplit, waitLoop_skip l _ hl]
    rfl
  · intro hall
    show waitLoop polls = _
    have := waitLoop_skip polls [] hall
    simpa using this

/-- Counterexample for C6 as stated: when the single delivered poll fails with
a backend error, the result is neither success nor the did-not-finish timeout
error — it is the wrapped state-fetch error. -/
theorem waitForWorkflowInstance_poll_error_counterexample :
    (WaitForWorkflowInstance 0 [PollOutcome.err (GoError.msg "redis: nil")]).snd
      = some (GoError.wrapped "getting workflow state" (GoError.msg "redis: nil"))
    ∧ (WaitForWorkflowInstance 0 [PollOutcome.err (GoError.msg "redis: nil")]).snd ≠ none
    ∧ (WaitForWorkflowInstance 0 [PollOutcome.err (GoError.msg "redis: nil")]).snd
      ≠ some (GoError.msg "workflow did not finish in specified timeout") := by
  refine ⟨rfl, by simp [WaitForWorkflowInstance, waitLoop], by simp [WaitForWorkflowInstance, waitLoop]⟩

/-- Witness for C6 (amended) at concrete schedules: a finished poll after one
active poll succeeds, and an all-active schedule times out with the
did-not-finish error. -/
theorem waitForWorkflowInstance_behavior_witness :
    ((WaitForWorkflowInstance 5 [PollOutcome.state WorkflowState.active,
        PollOutcome.state WorkflowState.finished]).snd = none)
    ∧ ((WaitForWorkflowInstance 5 [PollOutcome.state WorkflowState.active]).snd
        = some (GoError.msg "workflow did not finish in specified timeout")) :=
  ⟨(waitForWorkflowInstance_behavior 5 [PollOutcome.state WorkflowState.active,
      PollOutcome.state WorkflowState.finished]).2.1.mpr
      ⟨[PollOutcome.state WorkflowState.active], WorkflowState.finished, [],
        rfl, Or.inl rfl, by intro x hx; simp at hx; subst hx; rfl⟩,
   (waitForWorkflowInstance_behavior 5 [PollOutcome.state WorkflowState.active]).2.2.2
      (by intro x hx; simp at hx; subst hx; rfl)⟩

/-! ## Client: SignalWorkflow and CreateWorkflowInstance -/

/-- `client.SignalWorkflow`. The backend's `Converter().To` is `convTo`
(encoding the argument of type `α` may fail); the backend's `SignalWorkflow`
call outcome is `backendErr`. Returns the Go error outcome together with the
list of `(instance_id, event)` submissions made to the backend. -/
def SignalWorkflow {α : Type} (convTo : α → Except GoError Payload)
    (backendErr : Option GoError) (now : Nat)
    (instanceID name : String) (arg : α) :
    Option GoError × List (String × Event) :=
  match convTo arg with
  | Except.error e => (some (GoError.wrapped "converting arguments" e), [])
  | Except.ok input =>
    let signalEvent := NewPendingEvent now EventType.signalReceived
      (EventAttributes.signalReceived { Name := name, Arg := input })
    match backendErr with
    | some e => (some e, [(instanceID, signalEvent)])
    | none => (none, [(instanceID, signalEvent)])

/-- C7: `SignalWorkflow` encodes the argument through the converter and
submits exactly one pending `SignalReceived` event whose attributes carry the
given signal name and the encoded payload; when conversion fails it returns
the wrapped conversion error and submits nothing. -/
theorem signalWorkflow_submits_signalReceived {α : Type}
    (convTo : α → Except GoError Payload) (backendErr : Option GoError)
    (now : Nat) (instanceID name : String) (arg : α) :
    (∀ p, convTo arg = Except.ok p →
      (SignalWorkflow convTo backendErr now instanceID name arg).snd
        = [(instanceID, NewPendingEvent now EventType.signalReceived
            (EventAttributes.signalReceived { Name := name, Arg := p }))])
    ∧ (∀ e, convTo arg = Except.error e →
      SignalWorkflow convTo backendErr now instanceID name arg
        = (some (GoError.wrapped "converting arguments" e), [])) := by
  constructor
  · intro p hp
    cases backendErr with
    | none => simp [SignalWorkflow, hp]
    | some e => simp [SignalWorkflow, hp]
  · intro e he
    simp [SignalWorkflow, he]

/-- Witness for C7 with a converter that succeeds on `"hi"` and fails on
anything else. -/
theorem signalWorkflow_submits_signalReceived_witness :
    ((SignalWorkflow (fun a : String =>
        if a = "hi" then Except.ok ("enc:" ++ a) else Except.error (GoError.msg "bad"))
        none 4 "inst-1" "go" "hi").snd
      = [("inst-1", NewPendingEvent 4 EventType.signalReceived
          (EventAttributes.signalReceived { Name := "go", Arg := "enc:hi" }))])
    ∧ (SignalWorkflow (fun a : String =>
        if a = "hi" then Except.ok ("enc:" ++ a) else Except.error (GoError.msg "bad"))
        none 4 "inst-1" "go" "nope"
      = (some (GoError.wrapped "converting arguments" (GoError.msg "bad")), [])) :=
  ⟨(signalWorkflow_submits_signalReceived _ none 4 "inst-1" "go" "hi").1 "enc:hi" rfl,
   (signalWorkflow_submits_signalReceived _ none 4 "inst-1" "go" "nope").2
     (GoError.msg "bad") rfl⟩

/-- `client.WorkflowInstanceOptions`. -/
structure WorkflowInstanceOptions where
  InstanceID : String
  deriving DecidableEq, Repr

/-- `client.CreateWorkflowInstance`. The argument check `a.ParamsMatch` and
the conversion `a.ArgsToInputs` live outside src/; their outcomes at this
call's arguments are `paramsCheck` and `argsToInputs`. `workflowName` is
`fn.Name(wf)`, `metadata` the propagator-filled metadata, `freshExecutionID`
the `uuid.NewString()` draw, and `backendErr` the backend call's outcome.
Returns the Go `(instance, error)` result paired with the list of
`(instance, start_event)` creations submitted to the backend. -/
def CreateWorkflowInstance (paramsCheck : Option GoError)
    (argsToInputs : Except GoError (List Payload))
    (workflowName : String) (metadata : WorkflowMetadata)
    (freshExecutionID : String) (now : Nat)
    (options : WorkflowInstanceOptions) (backendErr : Option GoError) :
    Except GoError WorkflowInstance × List (WorkflowInstance × Event) :=
  match paramsCheck with
  | some e => (Except.error e, [])
  | none =>
    match argsToInputs with
    | Except.error e => (Except.error (GoError.wrapped "converting arguments" e), [])
    | Except.ok inputs =>
      let wfi := NewWorkflowInstance options.InstanceID freshExecutionID
      let startedEvent := NewPendingEvent now EventType.workflowExecutionStarted
        (EventAttributes.executionStarted
          { Metadata := metadata, Name := workflowName, Inputs := inputs })
      match backendErr with
      | some e => (Except.error (GoError.wrapped "creating workflow instance" e),
                   [(wfi, startedEvent)])
      | none => (Except.ok wfi, [(wfi, startedEvent)])

/-- C8: `CreateWorkflowInstance` builds the instance from the caller-supplied
instance id paired with the freshly generated execution id and submits one
`WorkflowExecutionStarted` start event carrying the workflow's name and the
converted arguments; when the argument check or the conversion fails, nothing
is submitted to the backend and no instance is created. -/
theorem createWorkflowInstance_client_start_event (paramsCheck : Option GoError)
    (argsToInputs : Except GoError (List Payload))
    (workflowName : String) (metadata : WorkflowMetadata)
    (freshExecutionID : String) (now : Nat)
    (options : WorkflowInstanceOptions) :
    (∀ inputs, paramsCheck = none → argsToInputs = Except.ok inputs →
      CreateWorkflowInstance paramsCheck argsToInputs workflowName metadata
          freshExecutionID now options none
        = (Except.ok { InstanceID := options.InstanceID, ExecutionID := freshExecutionID },
           [({ InstanceID := options.InstanceID, ExecutionID := freshExecutionID },
             NewPendingEvent now EventType.workflowExecutionStarted
               (EventAttributes.executionStarted
                 { Metadata := metadata, Name := workflowName, Inputs := inputs }))]))
    ∧ (∀ e backendErr, paramsCheck = some e →
      CreateWorkflowInstance paramsCheck argsToInputs workflowName metadata
          freshExecutionID now options backendErr
        = (Except.error e, []))
    ∧ (∀ e backendErr, paramsCheck = none → argsToInputs = Except.error e →
      CreateWorkflowInstance paramsCheck argsToInputs workflowName metadata
          freshExecutionID now options backendErr
        = (Except.error (GoError.wrapped "converting arguments" e), [])) := by
  refine ⟨fun inputs hp ha => ?_, fun e backendErr hp => ?_, fun e backendErr hp ha => ?_⟩
  · simp [CreateWorkflowInstance, hp, ha, NewWorkflowInstance]
  · simp [CreateWorkflowInstance, hp]
  · simp [CreateWorkflowInstance, hp, ha]

/-- Witness for C8 at concrete arguments. -/
theorem createWorkflowInstance_client_start_event_witness :
    (CreateWorkflowInstance none (Except.ok ["p1", "p2"]) "MyWorkflow" ⟨[]⟩
        "uuid-1" 9 { InstanceID := "i-1" } none
      = (Except.ok { InstanceID := "i-1", ExecutionID := "uuid-1" },
         [({ InstanceID := "i-1", ExecutionID := "uuid-1" },
           NewPendingEvent 9 EventType.workflowExecutionStarted
             (EventAttributes.executionStarted
               { Metadata := ⟨[]⟩, Name := "MyWorkflow", Inputs := ["p1", "p2"] }))]))
    ∧ (CreateWorkflowInstance none (Except.error (GoError.msg "cannot convert"))
        "MyWorkflow" ⟨[]⟩ "uuid-1" 9 { InstanceID := "i-1" } none
      = (Except.error (GoError.wrapped "converting arguments" (GoError.msg "cannot convert")),
         [])) :=
  ⟨(createWorkflowInstance_client_start_event none (Except.ok ["p1", "p2"]) "MyWorkflow"
      ⟨[]⟩ "uuid-1" 9 { InstanceID := "i-1" }).1 ["p1", "p2"] rfl rfl,
   (createWorkflowInstance_client_start_event none (Except.error (GoError.msg "cannot convert"))
      "MyWorkflow" ⟨[]⟩ "uuid-1" 9 { InstanceID := "i-1" }).2.2
      (GoError.msg "cannot convert") none rfl rfl⟩

/-! ## Redis backend (`backend/redis`) -/

/-- The stored instance record (`instanceState` in the redis backend). -/
structure instanceState where
  Instance : WorkflowInstance
  State : WorkflowState
  CreatedAt : Nat
  CompletedAt : Option Nat
  deriving DecidableEq, Repr

/-- A value stored at a redis key: either the JSON of an `instanceState`
(modelled structurally) or bytes that do not unmarshal into one. -/
inductive RedisVal where
  | inst (s : instanceState)
  | corrupt (raw : String)
  deriving DecidableEq, Repr

/-- The redis server state the embedded operations touch: the key/value store
(`SetNX`/`Get`), the event streams (`XAdd`), and the workflow task queue. -/
structure RedisState where
  kv : List (String × RedisVal)
  streams : List (String × List Event)
  workflowQueue : List String
  deriving DecidableEq, Repr

/-- Association-list lookup for the key/value store. -/
def kvLookup (kv : List (String × RedisVal)) (k : String) : Option RedisVal :=
  match kv with
  | [] => none
  | (k', v) :: rest => if k' = k then some v else kvLookup rest k

/-- Redis `SETNX`: stores the value only when the key is absent, returning
whether it stored. -/
def setNX (st : RedisState) (key : String) (val : RedisVal) : Bool × RedisState :=
  if (kvLookup st.kv key).isSome then (false, st)
  else (true, { st with kv := (key, val) :: st.kv })

/-- Redis `XADD` with id `*`: appends the event to the stream at the key. -/
def xadd (streams : List (String × List Event)) (key : String) (e : Event) :
    List (String × List Event) :=
  match streams with
  | [] => [(key, [e])]
  | (k, es) :: rest =>
    if k = key then (k, es ++ [e]) :: rest else (k, es) :: xadd rest key e

/-- `taskqueue.Enqueue` with duplicate detection: a second enqueue of the same
instance id yields `ErrTaskAlreadyInQueue`, which `CreateWorkflowInstance`
swallows; modelled as a no-op on duplicates. -/
def enqueue (q : List String) (id : String) : List String :=
  if id ∈ q then q else q ++ [id]

/-- Modelled from the spec: the redis key holding an instance's stored state
record (the keys source file is not under src/; only that the key is a
namespaced function of the instance id matters). -/
def instanceKey (instanceID : String) : String := "instance:" ++ instanceID

/-- Modelled from the spec: the redis stream key holding an instance's pending
events queue (the keys source file is not under src/). -/
def pendingEventsKey (instanceID : String) : String := "pending-events:" ++ instanceID

/-- `history.WorkflowEvent`: an instance reference paired with a history
event. -/
structure WorkflowEvent where
  workflowInstance : WorkflowInstance
  historyEvent : Event
  deriving DecidableEq, Repr

/-- `createInstance`: marshals a fresh `Active` record and `SETNX`es it; when
the key already existed and duplicates are not ignored, returns the
"workflow instance already exists" error. Returns the Go error outcome with
the resulting redis state. -/
def createInstance (st : RedisState) (inst : WorkflowInstance) (now : Nat)
    (ignoreDuplicate : Bool) : Option GoError × RedisState :=
  let key := instanceKey inst.InstanceID
  let b := RedisVal.inst
    { Instance := inst, State := WorkflowState.active,
      CreatedAt := now, CompletedAt := none }
  let res := setNX st key b
  if ¬ignoreDuplicate ∧ ¬res.fst then
    (some (GoError.msg "workflow instance already exists"), res.snd)
  else (none, res.snd)

namespace RedisBackend

/-- `redisBackend.CreateWorkflowInstance`: creates the instance record with
the default fail-on-duplicate policy, then appends the start event to the
instance's pending-events stream and enqueues the workflow task (ignoring
`ErrTaskAlreadyInQueue`). On a creation error it returns at once. -/
def CreateWorkflowInstance (st : RedisState) (now : Nat) (event : WorkflowEvent) :
    Option GoError × RedisState :=
  match createInstance st event.workflowInstance now false with
  | (some e, st') => (some e, st')
  | (none, st') =>
    let st2 := { st' with
      streams := xadd st'.streams
        (pendingEventsKey event.workflowInstance.InstanceID) event.historyEvent }
    let st3 := { st2 with
      workflowQueue := enqueue st2.workflowQueue event.workflowInstance.InstanceID }
    (none, st3)

end RedisBackend

/-- `readInstance`: `GET` of the instance key (a missing key is redis' nil
error, wrapped "could not read instance") followed by unmarshalling (failure
wrapped "could not unmarshal instance state"). -/
def readInstance (st : RedisState) (instanceID : String) : Except GoError instanceState :=
  match kvLookup st.kv (instanceKey instanceID) with
  | none => Except.error (GoError.wrapped "could not read instance" (GoError.msg "redis: nil"))
  | some (RedisVal.inst s) => Except.ok s
  | some (RedisVal.corrupt _) =>
    Except.error (GoError.wrapped "could not unmarshal instance state"
      (GoError.msg "invalid character"))

namespace RedisBackend

/-- `redisBackend.GetWorkflowInstanceState`: returns the stored state, or
`(WorkflowStateActive, err)` when the record cannot be read. -/
def GetWorkflowInstanceState (st : RedisState) (inst : WorkflowInstance) :
    WorkflowState × Option GoError :=
  match readInstance st inst.InstanceID with
  | Except.error e => (WorkflowState.active, some e)
  | Except.ok s => (s.State, none)

/-- `redisBackend.CancelWorkflowInstance`: the body is `panic("unimplemented")`. -/
def CancelWorkflowInstance (st : RedisState) (inst : WorkflowInstance) :
    GoCall (Option GoError × RedisState) :=
  GoCall.panicked "unimplemented"

end RedisBackend

/-! ## Claims C1, C5, C9: the redis backend operations -/

/-- C1 (the code): the redis backend's `CancelWorkflowInstance` panics with
"unimplemented" on every input — it never appends a cancellation event and
never returns. -/
theorem redis_cancelWorkflowInstance_panics (st : RedisState) (inst : WorkflowInstance) :
    RedisBackend.CancelWorkflowInstance st inst = GoCall.panicked "unimplemented"
    ∧ ∀ out, RedisBackend.CancelWorkflowInstance st inst ≠ GoCall.ret out := by
  exact ⟨rfl, fun out h => by cases h⟩

/-- C5: when the instance key already exists, `CreateWorkflowInstance` (which
uses the default fail-on-duplicate policy) returns the "workflow instance
already exists" error and leaves the redis state unchanged — no event is
appended to any stream and no task is enqueued — while `createInstance` with
duplicate-ignoring enabled succeeds on the same state. -/
theorem redis_createWorkflowInstance_duplicate_fails
    (st : RedisState) (now : Nat) (event : WorkflowEvent)
    (hdup : (kvLookup st.kv (instanceKey event.workflowInstance.InstanceID)).isSome) :
    RedisBackend.CreateWorkflowInstance st now event
      = (some (GoError.msg "workflow instance already exists"), st)
    ∧ (createInstance st event.workflowInstance now true).fst = none
    ∧ (createInstance st event.workflowInstance now true).snd = st := by
  have hset : setNX st (instanceKey event.workflowInstance.InstanceID)
      (RedisVal.inst
        { Instance := event.workflowInstance, State := WorkflowState.active,
          CreatedAt := now, CompletedAt := none }) = (false, st) := by
    simp [setNX, hdup]
  have hci : createInstance st event.workflowInstance now false
      = (some (GoError.msg "workflow instance already exists"), st) := by
    simp [createInstance, hset]
  refine ⟨?_, ?_, ?_⟩
  · simp [RedisBackend.CreateWorkflowInstance, hci]
  · simp [createInstance, hset]
  · simp [createInstance, hset]

/-- A concrete redis store already holding the record of instance "i-1", for
the C5 witness. -/
def dupStore : RedisState :=
  { kv := [(instanceKey "i-1", RedisVal.inst
      { Instance := { InstanceID := "i-1", ExecutionID := "e-0" },
        State := WorkflowState.active, CreatedAt := 0, CompletedAt := none })],
    streams := [], workflowQueue := [] }

/-- A concrete start event for a second creation attempt of instance "i-1". -/
def dupEvent : WorkflowEvent :=
  { workflowInstance := { InstanceID := "i-1", ExecutionID := "e-1" },
    historyEvent := NewPendingEvent 7 EventType.workflowExecutionStarted
      EventAttributes.other }

/-- Witness for C5 on a store already holding the instance key. -/
theorem redis_createWorkflowInstance_duplicate_fails_witness :
    RedisBackend.CreateWorkflowInstance dupStore 7 dupEvent
      = (some (GoError.msg "workflow instance already exists"), dupStore) :=
  (redis_createWorkflowInstance_duplicate_fails dupStore 7 dupEvent
    (by simp [dupStore, dupEvent, kvLookup])).1

/-- C9: whenever `readInstance` fails — in particular for an unknown instance
id — `GetWorkflowInstanceState` returns the state `WorkflowStateActive`
together with the error, so a caller ignoring the error sees the instance as
`Active`. -/
theorem redis_getWorkflowInstanceState_error_active
    (st : RedisState) (inst : WorkflowInstance) :
    (∀ e, readInstance st inst.InstanceID = Except.error e →
      RedisBackend.GetWorkflowInstanceState st inst = (WorkflowState.active, some e))
    ∧ (kvLookup st.kv (instanceKey inst.InstanceID) = none →
      (RedisBackend.GetWorkflowInstanceState st inst).fst = WorkflowState.active
      ∧ (RedisBackend.GetWorkflowInstanceState st inst).snd.isSome) := by
  constructor
  · intro e he
    simp [RedisBackend.GetWorkflowInstanceState, he]
  · intro hmiss
    have he : readInstance st inst.InstanceID
        = Except.error (GoError.wrapped "could not read instance" (GoError.msg "redis: nil")) := by
      simp [readInstance, hmiss]
    constructor <;> simp [RedisBackend.GetWorkflowInstanceState, he]

/-- Witness for C9 on an empty store: the unknown instance reads as Active
with an error. -/
theorem redis_getWorkflowInstanceState_error_active_witness :
    RedisBackend.GetWorkflowInstanceState
      { kv := [], streams := [], workflowQueue := [] }
      { InstanceID := "nope", ExecutionID := "e" }
      = (WorkflowState.active,
         some (GoError.wrapped "could not read instance" (GoError.msg "redis: nil"))) :=
  (redis_getWorkflowInstanceState_error_active
    { kv := [], streams := [], workflowQueue := [] }
    { InstanceID := "nope", ExecutionID := "e" }).1
    (GoError.wrapped "could not read instance" (GoError.msg "redis: nil")) rfl

end GoWorkflows
